import Mathlib

/-!
Verification development for the SIH-errors smart-sprayer repository
(src/raspi_smart_sprayer.py and src/cc.py), as a shallow embedding:
pure Python functions become Lean functions on ℚ / Nat / String, the
mutable module-level state becomes explicit state passing, exceptions
become Except / an explicit outcome type, and the two-thread spray
interleavings become a small-step scheduler over finite system states.
-/

/-- Severity enumeration used by the spec: None < Low < Medium < High.
The raspi script encodes these as the integers 0..3 („0=None, 1=Low,
2=Medium, 3=High" per its comment); cc.py uses the strings. -/
inductive Severity
  | sevNone
  | sevLow
  | sevMedium
  | sevHigh
deriving DecidableEq, Repr

/-- Decode the raspi scripts numeric severity levels (0..3). -/
def Severity.ofCode (n : Nat) : Severity :=
  if n = 0 then Severity.sevNone
  else if n = 1 then Severity.sevLow
  else if n = 2 then Severity.sevMedium
  else Severity.sevHigh

/-- One HSV pixel as produced by cv2.cvtColor(..., COLOR_BGR2HSV):
channels are 8-bit values. -/
structure HSVPixel where
  h : Nat
  s : Nat
  v : Nat
deriving DecidableEq, Repr

/-- cv2.inRange(hsv, [5,50,50], [30,255,255]) membership test for one
pixel (inclusive bounds on every channel, as inRange specifies). -/
def inBand (p : HSVPixel) : Bool :=
  decide (5 ≤ p.h) && decide (p.h ≤ 30) &&
  decide (50 ≤ p.s) && decide (p.s ≤ 255) &&
  decide (50 ≤ p.v) && decide (p.v ≤ 255)

/-- A frame, reduced to its pixel list (the only thing the placeholder
detector reads from it). -/
abbrev Frame := List HSVPixel

/-- cover = np.count_nonzero(mask) / (frame.shape[0]*frame.shape[1]):
the fraction of pixels inside the hue/saturation/value band. -/
def bandCover (frame : Frame) : ℚ :=
  ((frame.filter inBand).length : ℚ) / (frame.length : ℚ)

/-- placeholder_detector from raspi_smart_sprayer.py: maps the band
coverage fraction through the breakpoints 0.003 / 0.02 / 0.08 to
(label, confidence, numeric severity 0..3). -/
def placeholder_detector (frame : Frame) : String × ℚ × Nat :=
  let cover := bandCover frame
  if cover < 3/1000 then
    ("Healthy", 1 - cover, 0)
  else if cover < 2/100 then
    ("Possible Leaf Spot", min (9/10) (cover * 50), 1)
  else if cover < 8/100 then
    ("Infected: Leaf Spot", min (95/100) (cover * 10), 2)
  else
    ("Severe Infection", min (99/100) (cover * 5), 3)

/-- CLASS_NAMES from raspi_smart_sprayer.py. -/
def CLASS_NAMES : List String := ["Healthy", "Disease_A", "Disease_B", "Disease_C"]

/-- Index of the first maximum of the remaining list, given the best
index/value seen so far; mirrors np.argmax (first max wins, strict
improvement required to replace). -/
def argmaxFrom (best : Nat) (bestVal : ℚ) (i : Nat) : List ℚ → Nat
  | [] => best
  | x :: xs => if bestVal < x then argmaxFrom i x (i+1) xs else argmaxFrom best bestVal (i+1) xs

/-- np.argmax on a probability vector (0 on the empty list, which numpy
would reject). -/
def argmax : List ℚ → Nat
  | [] => 0
  | x :: xs => argmaxFrom 0 x 1 xs

/-- The (label, confidence) → numeric severity mapping at the end of
keras_detector in raspi_smart_sprayer.py. -/
def kerasSeverity (label : String) (confidence : ℚ) : Nat :=
  if label = "Healthy" then
    if 6/10 < confidence then 0 else 1
  else
    if confidence < 1/2 then 1
    else if confidence < 8/10 then 2
    else 3

/-- keras_detector from raspi_smart_sprayer.py, abstracted over the
model output probability vector: take the arg-max class, name it via
CLASS_NAMES (or the generic Class-idx name), use its probability as
confidence, and map to severity. -/
def keras_detector (probs : List ℚ) : String × ℚ × Nat :=
  let idx := argmax probs
  let label :=
    if h : idx < CLASS_NAMES.length then CLASS_NAMES.get ⟨idx, h⟩
    else "Class " ++ toString idx
  let confidence := probs.getD idx 0
  (label, confidence, kerasSeverity label confidence)

/-- The label/confidence → string severity mapping inside analyze_frame
in cc.py: severity starts as None; a non-Healthy label is High above
0.8 (strict), Medium above 0.5 (strict), else Low. -/
def ccSeverity (label : String) (confidence : ℚ) : String :=
  if label ≠ "Healthy" then
    if 8/10 < confidence then "High"
    else if 1/2 < confidence then "Medium"
    else "Low"
  else "None"

/-- Outcome of running model.predict on the current frame: either a
probability vector or a raised exception with a message. -/
inductive InferOutcome
  | ok (probs : List ℚ)
  | err (msg : String)
deriving DecidableEq, Repr

/-- analyze_frame from cc.py, abstracted over whether the plant model
loaded (Option.none means load_plant_model cached a load failure and
returned None, so the mock branch runs) and over the inference
outcome.  An inference-time exception propagates: nothing in
analyze_frame catches it.  Returns (result label, severity); the
cosmetic f-string confidence suffix of the label is not modelled. -/
def cc_analyze_frame (classes : List String) : Option InferOutcome → Except String (String × String)
  | Option.none => Except.ok ("Mock: Possible infection detected", "Medium")
  | Option.some (InferOutcome.err m) => Except.error m
  | Option.some (InferOutcome.ok probs) =>
      let idx := argmax probs
      let confidence := probs.getD idx 0
      let label := classes.getD idx ""
      Except.ok (label, ccSeverity label confidence)

/-- Response of the raspi /detect route: either the 503 no_frame error
or a (label, confidence, severity, log) JSON payload. -/
inductive DetectResponse
  | noFrame
  | result (label : String) (confidence : ℚ) (severity : Nat) (log : String)
deriving DecidableEq, Repr

/-- FrameBuffer state before any capture succeeds: latest_frame starts
as None in raspi_smart_sprayer.py (and current_frame as None in
cc.py). -/
def initialFrameState : Option Frame := Option.none

/-- CameraThread publishing one frame: latest_frame is overwritten
unconditionally with a copy of the new frame. -/
def publishFrame (_old : Option Frame) (f : Frame) : Option Frame :=
  Option.some f

/-- The /detect route of raspi_smart_sprayer.py.  latest is what
cam_thread.get_frame() returns (None before any publish); kerasModel
is None when no model was loaded, otherwise the outcome of running
keras inference on the captured frame.  A None frame short-circuits to
the no_frame error; a raised keras exception is caught and the
placeholder detector runs on the same frame. -/
def raspi_detect (latest : Option Frame) (kerasModel : Option InferOutcome) : DetectResponse :=
  match latest with
  | Option.none => DetectResponse.noFrame
  | Option.some frame =>
    match kerasModel with
    | Option.some (InferOutcome.ok probs) =>
        let r := keras_detector probs
        DetectResponse.result r.1 r.2.1 r.2.2 "Used Keras model."
    | Option.some (InferOutcome.err _) =>
        let r := placeholder_detector frame
        DetectResponse.result r.1 r.2.1 r.2.2 "Used placeholder detector."
    | Option.none =>
        let r := placeholder_detector frame
        DetectResponse.result r.1 r.2.1 r.2.2 "Used placeholder detector."

/-- Python truthiness of the session plant value: None and the empty
string are falsy. -/
def plantTruthy : Option String → Bool
  | Option.none => false
  | Option.some s => s ≠ ""

/-- The /check route of the cc.py smart-sprayer app.  Takes the session
plant, the current frame, the model/inference situation, the class
list, and the stored analysis_result; returns the JSON reply together
with the new analysis_result, or propagates an analyze_frame
exception.  The guard is: if not plant or current_frame is None,
reply no-frame and leave analysis_result untouched. -/
def cc_check (plant : Option String) (frame : Option Frame)
    (model : Option InferOutcome) (classes : List String)
    (analysis_result : Option (String × String)) :
    Except String ((String × String) × Option (String × String)) :=
  if plantTruthy plant = false ∨ frame = Option.none then
    Except.ok (("No frame available", "None"), analysis_result)
  else
    match cc_analyze_frame classes model with
    | Except.error e => Except.error e
    | Except.ok (r, sev) => Except.ok ((r, sev), Option.some (r, sev))

/-- Reply of the cc.py /spray route, paired with whether a pump drive
thread was started. -/
def cc_spray (analysis_result : Option (String × String)) : String × Bool :=
  match analysis_result with
  | Option.none => ("No analysis result yet", false)
  | Option.some (_, sev) =>
      if sev = "Medium" ∨ sev = "High" then ("Pump activated!", true)
      else ("Spray not needed.", false)

/-- The /spray route of raspi_smart_sprayer.py: it reads the duration
from the request body, unconditionally starts an activate_pump thread,
and replies status activated with that duration.  There is no server
side detection state to consult (the severity gating lives only in the
browser UI). -/
def raspi_spray_route (duration : ℚ) : String × ℚ × Bool :=
  ("activated", duration, true)

/-- Electrical level of the pump output, with polarity already resolved
(PUMP_ACTIVE_HIGH = True in both scripts, so active = HIGH). -/
inductive Level
  | active
  | inactive
deriving DecidableEq, Repr, Fintype

/-- Pin state threaded through a drive sequence: the current level and
whether the pin was ever driven to the active level. -/
structure PinSt where
  level : Level
  everActive : Bool
deriving DecidableEq, Repr

/-- Result of one Python statement: normal completion or a raised
exception carrying a message. -/
inductive Out (α : Type)
  | ok (a : α)
  | exn (msg : String)
deriving DecidableEq, Repr

/-- One straight-line pump action: a state transformer that may raise. -/
abbrev PumpAct := PinSt → PinSt × Out Unit

/-- GPIO.output on the pump pin. -/
def setPin (l : Level) : PumpAct := fun st =>
  ({ level := l, everActive := st.everActive || decide (l = Level.active) }, Out.ok ())

/-- time.sleep(duration): completes normally when holdOk, otherwise an
exception is raised during the hold (e.g. an interrupt). -/
def sleepHold (holdOk : Bool) : PumpAct := fun st =>
  (st, if holdOk then Out.ok () else Out.exn "interrupted during hold")

/-- Sequencing of two statements: an exception in the first skips the
second and propagates. -/
def andThen (a b : PumpAct) : PumpAct := fun st =>
  match a st with
  | (st1, Out.ok _) => b st1
  | (st1, Out.exn m) => (st1, Out.exn m)

/-- Python try/finally whose finally block ends in return True: the
finally block always runs, and its return swallows any exception the
body raised (exactly the shape of activate_pump in
raspi_smart_sprayer.py). -/
def tryFinallyReturnTrue (body fin : PumpAct) : PinSt → PinSt × Out Bool := fun st =>
  let (st1, _) := body st
  match fin st1 with
  | (st2, Out.ok _) => (st2, Out.ok true)
  | (st2, Out.exn m) => (st2, Out.exn m)

/-- activate_pump from raspi_smart_sprayer.py (GPIO branch): assert the
active level, hold, and in the finally block deassert and return
True.  holdOk says whether the sleep completed normally. -/
def raspi_activate_pump (holdOk : Bool) : PinSt → PinSt × Out Bool :=
  tryFinallyReturnTrue
    (andThen (setPin Level.active) (sleepHold holdOk))
    (setPin Level.inactive)

/-- trigger_pump from the cc.py smart-sprayer app (RPI branch): assert,
hold, deassert, with no try/finally around the hold. -/
def cc_trigger_pump (holdOk : Bool) : PumpAct :=
  andThen (setPin Level.active)
    (andThen (sleepHold holdOk) (setPin Level.inactive))

/-- The /spray route of the first cc.py app (motor controller): output
True on PUMP_PIN, sleep 3 seconds, output False — same unprotected
shape as trigger_pump. -/
def cc_spray_route_drive (holdOk : Bool) : PumpAct :=
  andThen (setPin Level.active)
    (andThen (sleepHold holdOk) (setPin Level.inactive))

/-- Program counter of one thread running activate_pump under the
shared pump_lock in raspi_smart_sprayer.py: waiting to acquire the
lock, asserting the pin, holding, deasserting (finally), releasing the
lock while returning True, or done. -/
inductive Phase
  | pAcquire
  | pAssert
  | pHold
  | pDeassert
  | pRelease
  | pDone
deriving DecidableEq, Repr, Fintype

/-- Joint state of two concurrent spray calls (threads false and true)
running activate_pump: per-thread program counters, holder of
pump_lock, pump pin level, and each threads return value once it has
returned (activate_pump only ever returns True). -/
structure Sys where
  pc0 : Phase
  pc1 : Phase
  lock : Option Bool
  pin : Level
  ret0 : Option Bool
  ret1 : Option Bool
deriving DecidableEq, Repr

/-- Both spray requests have arrived while the actuator is idle:
both threads are about to acquire the lock, the lock is free, the pin
is inactive, and neither call has returned. -/
def sysInit : Sys :=
  { pc0 := Phase.pAcquire, pc1 := Phase.pAcquire,
    lock := Option.none, pin := Level.inactive,
    ret0 := Option.none, ret1 := Option.none }

/-- One atomic step of one thread.  Acquiring a held lock leaves the
thread exactly where it was (the with-statement blocks; nothing in
activate_pump returns a busy indication).  The whole
assert–hold–deassert sequence runs while holding the lock; the release
step returns True. -/
def sysStep (s : Sys) (t : Bool) : Sys :=
  let pc := if t then s.pc1 else s.pc0
  match pc with
  | Phase.pAcquire =>
      match s.lock with
      | Option.none =>
          if t then { s with pc1 := Phase.pAssert, lock := Option.some true }
          else { s with pc0 := Phase.pAssert, lock := Option.some false }
      | Option.some _ => s
  | Phase.pAssert =>
      if t then { s with pc1 := Phase.pHold, pin := Level.active }
      else { s with pc0 := Phase.pHold, pin := Level.active }
  | Phase.pHold =>
      if t then { s with pc1 := Phase.pDeassert }
      else { s with pc0 := Phase.pDeassert }
  | Phase.pDeassert =>
      if t then { s with pc1 := Phase.pRelease, pin := Level.inactive }
      else { s with pc0 := Phase.pRelease, pin := Level.inactive }
  | Phase.pRelease =>
      if t then { s with pc1 := Phase.pDone, lock := Option.none, ret1 := Option.some true }
      else { s with pc0 := Phase.pDone, lock := Option.none, ret0 := Option.some true }
  | Phase.pDone => s

/-- Run a schedule (list of thread choices) from a state. -/
def sysRun (s : Sys) (sched : List Bool) : Sys :=
  sched.foldl sysStep s

/-- A thread is inside the physical drive window (between acquiring the
lock and releasing it). -/
def inDrive (pc : Phase) : Bool :=
  match pc with
  | Phase.pAssert => true
  | Phase.pHold => true
  | Phase.pDeassert => true
  | Phase.pRelease => true
  | _ => false

/-- Invariant of the two-thread raspi spray model: program counters are
consistent with lock ownership, the two drive windows are mutually
exclusive, and any value ever returned is True. -/
def sysInv (s : Sys) : Bool :=
  (inDrive s.pc0 = (s.lock = Option.some false)) &&
  (inDrive s.pc1 = (s.lock = Option.some true)) &&
  !(inDrive s.pc0 && inDrive s.pc1) &&
  (s.ret0 = Option.none || s.ret0 = Option.some true) &&
  (s.ret1 = Option.none || s.ret1 = Option.some true)

/-- Program counter of one thread running trigger_pump in the cc.py
smart-sprayer app: there is no lock anywhere, just assert, hold,
deassert, done. -/
inductive CPhase
  | cAssert
  | cHold
  | cDeassert
  | cDone
deriving DecidableEq, Repr

/-- Joint state of two concurrent trigger_pump threads spawned by two
cc.py spray requests. -/
structure CSys where
  cpc0 : CPhase
  cpc1 : CPhase
  cpin : Level
deriving DecidableEq, Repr

/-- Both trigger_pump threads have just been started. -/
def csysInit : CSys :=
  { cpc0 := CPhase.cAssert, cpc1 := CPhase.cAssert, cpin := Level.inactive }

/-- One atomic step of one cc.py trigger_pump thread. -/
def csysStep (s : CSys) (t : Bool) : CSys :=
  let pc := if t then s.cpc1 else s.cpc0
  match pc with
  | CPhase.cAssert =>
      if t then { s with cpc1 := CPhase.cHold, cpin := Level.active }
      else { s with cpc0 := CPhase.cHold, cpin := Level.active }
  | CPhase.cHold =>
      if t then { s with cpc1 := CPhase.cDeassert }
      else { s with cpc0 := CPhase.cDeassert }
  | CPhase.cDeassert =>
      if t then { s with cpc1 := CPhase.cDone, cpin := Level.inactive }
      else { s with cpc0 := CPhase.cDone, cpin := Level.inactive }
  | CPhase.cDone => s

/-- Run a schedule of thread choices in the cc.py model. -/
def csysRun (s : CSys) (sched : List Bool) : CSys :=
  sched.foldl csysStep s

/-- A cc.py trigger_pump thread is mid-drive (has asserted the pin and
not yet deasserted it). -/
def cInDrive (pc : CPhase) : Bool :=
  match pc with
  | CPhase.cHold => true
  | CPhase.cDeassert => true
  | _ => false

/-- The /speed/<int:speed> handler of the cc.py motor-controller app:
stores max(0, min(100, speed)) as motor_speed, applies it as the PWM
duty cycle, and reports the stored value. -/
def set_speed (speed : Int) : Int × String :=
  let motor_speed := max 0 (min 100 speed)
  (motor_speed, "Speed set to " ++ toString motor_speed ++ "%")

/-- A pixel inside the brownish/yellowish HSV band. -/
def bandPixel : HSVPixel := { h := 10, s := 100, v := 100 }

/-- A pixel outside the band (black). -/
def plainPixel : HSVPixel := { h := 0, s := 0, v := 0 }

/-- A 100-pixel frame with 9% band coverage. -/
def frameNinePercent : Frame :=
  List.replicate 9 bandPixel ++ List.replicate 91 plainPixel

/-- A 1000-pixel frame with 0.1% band coverage. -/
def frameTenthPercent : Frame :=
  bandPixel :: List.replicate 999 plainPixel

/-- A 100-pixel frame with 1% band coverage. -/
def frameOnePercent : Frame :=
  bandPixel :: List.replicate 99 plainPixel

/-- A 100-pixel frame with 5% band coverage. -/
def frameFivePercent : Frame :=
  List.replicate 5 bandPixel ++ List.replicate 95 plainPixel

theorem inBand_bandPixel : inBand bandPixel = true := by decide

theorem inBand_plainPixel : inBand plainPixel = false := by decide

theorem filter_inBand_replicate_plain (n : Nat) :
    (List.replicate n plainPixel).filter inBand = [] := by
  induction n with
  | zero => rfl
  | succ k ih => rw [List.replicate_succ, List.filter_cons, inBand_plainPixel]; simpa using ih

theorem filter_inBand_replicate_band (n : Nat) :
    (List.replicate n bandPixel).filter inBand = List.replicate n bandPixel := by
  induction n with
  | zero => rfl
  | succ k ih => rw [List.replicate_succ, List.filter_cons, inBand_bandPixel]; simp [ih]

theorem bandCover_nine : bandCover frameNinePercent = 9/100 := by
  have h1 : frameNinePercent.filter inBand = List.replicate 9 bandPixel := by
    rw [frameNinePercent, List.filter_append, filter_inBand_replicate_plain,
      filter_inBand_replicate_band, List.append_nil]
  have h2 : frameNinePercent.length = 100 := by
    rw [frameNinePercent, List.length_append, List.length_replicate, List.length_replicate]
  rw [bandCover, h1, h2, List.length_replicate]
  norm_num

theorem bandCover_tenth : bandCover frameTenthPercent = 1/1000 := by
  have h1 : frameTenthPercent.filter inBand = [bandPixel] := by
    rw [frameTenthPercent, List.filter_cons, inBand_bandPixel]
    rw [filter_inBand_replicate_plain]
    simp
  have h2 : frameTenthPercent.length = 1000 := by
    rw [frameTenthPercent, List.length_cons, List.length_replicate]
  rw [bandCover, h1, h2]
  norm_num

theorem bandCover_one : bandCover frameOnePercent = 1/100 := by
  have h1 : frameOnePercent.filter inBand = [bandPixel] := by
    rw [frameOnePercent, List.filter_cons, inBand_bandPixel]
    rw [filter_inBand_replicate_plain]
    simp
  have h2 : frameOnePercent.length = 100 := by
    rw [frameOnePercent, List.length_cons, List.length_replicate]
  rw [bandCover, h1, h2]
  norm_num

theorem bandCover_five : bandCover frameFivePercent = 5/100 := by
  have h1 : frameFivePercent.filter inBand = List.replicate 5 bandPixel := by
    rw [frameFivePercent, List.filter_append, filter_inBand_replicate_plain,
      filter_inBand_replicate_band, List.append_nil]
  have h2 : frameFivePercent.length = 100 := by
    rw [frameFivePercent, List.length_append, List.length_replicate, List.length_replicate]
  rw [bandCover, h1, h2, List.length_replicate]
  norm_num

/-- C5: if detect is invoked before any frame has ever been published
to the frame buffer, it returns the typed no-frame condition — the
raspi /detect route replies with the no_frame error and the cc.py
/check route replies No frame available leaving its state alone — and
never returns a classifier result. -/
theorem C5_detect_before_publish :
    (∀ kerasModel : Option InferOutcome,
      raspi_detect initialFrameState kerasModel = DetectResponse.noFrame) ∧
    (∀ (plant : Option String) (model : Option InferOutcome)
       (classes : List String) (st : Option (String × String)),
      cc_check plant Option.none model classes st =
        Except.ok (("No frame available", "None"), st)) := by
  constructor
  · intro kerasModel; rfl
  · intro plant model classes st
    simp [cc_check]

/-- C7: the heuristic placeholder detector maps band coverage through
its breakpoints to the four severity levels; in particular a frame
with 9% band coverage yields High and a frame with 0.1% band coverage
yields None (and the middle intervals yield Low and Medium). -/
theorem C7_heuristic_breakpoints (f g u v : Frame)
    (hf : bandCover f = 9/100) (hg : bandCover g = 1/1000)
    (hu1 : 3/1000 ≤ bandCover u) (hu2 : bandCover u < 2/100)
    (hv1 : 2/100 ≤ bandCover v) (hv2 : bandCover v < 8/100) :
    Severity.ofCode (placeholder_detector f).2.2 = Severity.sevHigh ∧
    Severity.ofCode (placeholder_detector g).2.2 = Severity.sevNone ∧
    Severity.ofCode (placeholder_detector u).2.2 = Severity.sevLow ∧
    Severity.ofCode (placeholder_detector v).2.2 = Severity.sevMedium := by
  refine ⟨?_, ?_, ?_, ?_⟩
  · rw [placeholder_detector, hf]
    norm_num [Severity.ofCode]
  · rw [placeholder_detector, hg]
    norm_num [Severity.ofCode]
  · rw [placeholder_detector]
    rw [if_neg (by linarith), if_pos hu2]
    norm_num [Severity.ofCode]
  · rw [placeholder_detector]
    rw [if_neg (by linarith), if_neg (by linarith), if_pos hv2]
    norm_num [Severity.ofCode]

/-- Witness for C7: concrete frames with 9%, 0.1%, 1% and 5% band
coverage, run through the theorem. -/
theorem C7_heuristic_breakpoints_witness :
    (bandCover frameNinePercent = 9/100 ∧
     bandCover frameTenthPercent = 1/1000 ∧
     3/1000 ≤ bandCover frameOnePercent ∧ bandCover frameOnePercent < 2/100 ∧
     2/100 ≤ bandCover frameFivePercent ∧ bandCover frameFivePercent < 8/100) ∧
    (Severity.ofCode (placeholder_detector frameNinePercent).2.2 = Severity.sevHigh ∧
     Severity.ofCode (placeholder_detector frameTenthPercent).2.2 = Severity.sevNone ∧
     Severity.ofCode (placeholder_detector frameOnePercent).2.2 = Severity.sevLow ∧
     Severity.ofCode (placeholder_detector frameFivePercent).2.2 = Severity.sevMedium) :=
  ⟨⟨bandCover_nine, bandCover_tenth,
    by rw [bandCover_one]; norm_num, by rw [bandCover_one]; norm_num,
    by rw [bandCover_five]; norm_num, by rw [bandCover_five]; norm_num⟩,
   C7_heuristic_breakpoints frameNinePercent frameTenthPercent frameOnePercent frameFivePercent
     bandCover_nine bandCover_tenth
     (by rw [bandCover_one]; norm_num) (by rw [bandCover_one]; norm_num)
     (by rw [bandCover_five]; norm_num) (by rw [bandCover_five]; norm_num)⟩

/-- Band coverage of the single-plain-pixel frame is zero. -/
theorem bandCover_plain_single : bandCover [plainPixel] = 0 := by
  rw [bandCover, List.filter_cons, inBand_plainPixel]
  simp

/-- Counterexample for C8: a frame with zero band coverage takes the
Healthy branch of placeholder_detector and its synthetic confidence is
exactly 1.0, not strictly below 1.0. -/
theorem C8_counterexample :
    (placeholder_detector [plainPixel]).2.1 = 1 ∧
    1 ≤ (placeholder_detector [plainPixel]).2.1 := by
  have h : (placeholder_detector [plainPixel]).2.1 = 1 := by
    simp only [placeholder_detector, bandCover_plain_single]
    norm_num
  exact ⟨h, le_of_eq h.symm⟩

/-- C8 (amended): the synthetic confidence of the placeholder detector
is strictly below 1.0 for every frame with positive band coverage (the
infected branches are capped at 0.9/0.95/0.99), and is at most 1.0 for
every frame; a zero-coverage frame returns exactly 1.0. -/
theorem C8_confidence_bound (frame : Frame) (hpos : 0 < bandCover frame) :
    (placeholder_detector frame).2.1 < 1 ∧
    ∀ g : Frame, (placeholder_detector g).2.1 ≤ 1 := by
  have nonneg : ∀ g : Frame, 0 ≤ bandCover g := fun g =>
    div_nonneg (Nat.cast_nonneg _) (Nat.cast_nonneg _)
  constructor
  · simp only [placeholder_detector]
    split_ifs
    · show 1 - bandCover frame < 1
      linarith
    · show min (9/10) (bandCover frame * 50) < 1
      exact lt_of_le_of_lt (min_le_left _ _) (by norm_num)
    · show min (95/100) (bandCover frame * 10) < 1
      exact lt_of_le_of_lt (min_le_left _ _) (by norm_num)
    · show min (99/100) (bandCover frame * 5) < 1
      exact lt_of_le_of_lt (min_le_left _ _) (by norm_num)
  · intro g
    simp only [placeholder_detector]
    split_ifs
    · show 1 - bandCover g ≤ 1
      have := nonneg g
      linarith
    · show min (9/10) (bandCover g * 50) ≤ 1
      exact le_trans (min_le_left _ _) (by norm_num)
    · show min (95/100) (bandCover g * 10) ≤ 1
      exact le_trans (min_le_left _ _) (by norm_num)
    · show min (99/100) (bandCover g * 5) ≤ 1
      exact le_trans (min_le_left _ _) (by norm_num)

/-- Witness for C8 (amended): the 1%-coverage frame has positive
coverage and confidence below 1. -/
theorem C8_confidence_bound_witness :
    0 < bandCover frameOnePercent ∧
    ((placeholder_detector frameOnePercent).2.1 < 1 ∧
     ∀ g : Frame, (placeholder_detector g).2.1 ≤ 1) :=
  ⟨by rw [bandCover_one]; norm_num,
   C8_confidence_bound frameOnePercent (by rw [bandCover_one]; norm_num)⟩

/-- C9: the cc.py speed handler stores exactly max(0, min(100, speed)),
so the stored motor speed is always in [0, 100], and the reply reports
the clamped value. -/
theorem C9_set_speed_clamped (speed : Int) :
    (set_speed speed).1 = max 0 (min 100 speed) ∧
    0 ≤ (set_speed speed).1 ∧ (set_speed speed).1 ≤ 100 ∧
    (set_speed speed).2 = "Speed set to " ++ toString (max 0 (min 100 speed)) ++ "%" := by
  refine ⟨rfl, ?_, ?_, rfl⟩
  · simp [set_speed]
  · simp only [set_speed]
    exact max_le (by norm_num) (min_le_left _ _)

/-- C10: when the cc.py check route fails with the no-frame condition
(no truthy plant in the session, or no frame ever captured), the
stored analysis_result is left unchanged, and the spray decision taken
on the post-check state is the one the previous detection dictates. -/
theorem C10_failed_check_preserves_state (plant : Option String) (frame : Option Frame)
    (model : Option InferOutcome) (classes : List String)
    (st : Option (String × String))
    (hfail : plantTruthy plant = false ∨ frame = Option.none) :
    cc_check plant frame model classes st =
      Except.ok (("No frame available", "None"), st) ∧
    (cc_check plant frame model classes st).map (fun r => cc_spray r.2) =
      Except.ok (cc_spray st) := by
  have h : cc_check plant frame model classes st =
      Except.ok (("No frame available", "None"), st) := by
    rw [cc_check, if_pos hfail]
  exact ⟨h, by rw [h]; rfl⟩

/-- Witness for C10: a session with plant wheat but no captured frame,
with a previously stored High detection, keeps that detection through
the failed check and still sprays on it. -/
theorem C10_failed_check_preserves_state_witness :
    (plantTruthy (Option.some "wheat") = false ∨ (Option.none : Option Frame) = Option.none) ∧
    (cc_check (Option.some "wheat") Option.none (Option.some (InferOutcome.ok [9/10]))
        ["Healthy", "Rust", "Blight"] (Option.some ("Rust", "High")) =
      Except.ok (("No frame available", "None"), Option.some ("Rust", "High")) ∧
     (cc_check (Option.some "wheat") Option.none (Option.some (InferOutcome.ok [9/10]))
        ["Healthy", "Rust", "Blight"] (Option.some ("Rust", "High"))).map (fun r => cc_spray r.2) =
       Except.ok (cc_spray (Option.some ("Rust", "High")))) :=
  ⟨Or.inr rfl, C10_failed_check_preserves_state _ _ _ _ _ (Or.inr rfl)⟩

/-- Counterexample for C1: the raspi /spray route, with no detection
ever recorded anywhere on the server, still replies activated and its
spawned activate_pump drive asserts the actuator output. -/
theorem C1_counterexample :
    (raspi_spray_route 5).1 = "activated" ∧
    (raspi_spray_route 5).2.2 = true ∧
    (raspi_activate_pump true { level := Level.inactive, everActive := false }).1.everActive = true := by
  exact ⟨rfl, rfl, rfl⟩

/-- C1 (amended): the cc.py spray route consults the stored analysis
result and starts a pump drive iff the recorded severity is Medium or
High, replying with distinct no-spray messages when nothing was ever
recorded or the severity is anything else; the raspi /spray route
performs no server-side gating at all — it always replies activated
and starts a drive. -/
theorem C1_spray_gating :
    cc_spray Option.none = ("No analysis result yet", false) ∧
    (∀ (lbl sev : String),
      (cc_spray (Option.some (lbl, sev))).2 = true ↔ sev = "Medium" ∨ sev = "High") ∧
    (∀ (lbl sev : String),
      (cc_spray (Option.some (lbl, sev))).1 = "Spray not needed." ↔
        ¬(sev = "Medium" ∨ sev = "High")) ∧
    (∀ duration : ℚ, raspi_spray_route duration = ("activated", duration, true)) := by
  refine ⟨rfl, ?_, ?_, fun _ => rfl⟩
  · intro lbl sev
    by_cases h : sev = "Medium" ∨ sev = "High" <;> simp [cc_spray, h]
  · intro lbl sev
    by_cases h : sev = "Medium" ∨ sev = "High" <;> simp [cc_spray, h]

/-- Counterexample for C3: in the cc.py smart-sprayer app, an exception
raised during the hold of trigger_pump propagates with the pin still
at the Active level (there is no try/finally), and the same holds for
the first cc.py app's /spray route drive. -/
theorem C3_counterexample :
    (cc_trigger_pump false { level := Level.inactive, everActive := false }).1.level = Level.active ∧
    (cc_trigger_pump false { level := Level.inactive, everActive := false }).2 =
      Out.exn "interrupted during hold" ∧
    (cc_spray_route_drive false { level := Level.inactive, everActive := false }).1.level = Level.active := by
  exact ⟨rfl, rfl, rfl⟩

/-- C3 (amended): raspi_smart_sprayer's activate_pump deasserts the pin
on every exit path — its try/finally runs the deassertion and the
return True in the finally block even swallows a hold exception — but
cc.py's trigger_pump and the first cc.py app's /spray drive deassert
only when the hold completes normally: an exception during their hold
propagates with the pin still asserted. -/
theorem C3_deassert_paths :
    (∀ (holdOk : Bool) (st : PinSt),
      (raspi_activate_pump holdOk st).1.level = Level.inactive ∧
      (raspi_activate_pump holdOk st).2 = Out.ok true) ∧
    (∀ st : PinSt, (cc_trigger_pump true st).1.level = Level.inactive) ∧
    (∀ st : PinSt, (cc_trigger_pump false st).1.level = Level.active) ∧
    (∀ st : PinSt, (cc_spray_route_drive false st).1.level = Level.active) := by
  refine ⟨?_, fun st => rfl, fun st => rfl, fun st => rfl⟩
  intro holdOk st
  cases holdOk <;> exact ⟨rfl, rfl⟩

/-- Counterexample for C4: in cc.py's analyze_frame, an arg-max
confidence of exactly 0.5 on a non-healthy class yields Low (the claim
says Medium) and exactly 0.8 yields Medium (the claim says High),
because the comparisons are strict. -/
theorem C4_counterexample :
    cc_analyze_frame ["Healthy", "Rust", "Blight"]
      (Option.some (InferOutcome.ok [1/5, 1/2, 3/10])) = Except.ok ("Rust", "Low") ∧
    cc_analyze_frame ["Healthy", "Rust", "Blight"]
      (Option.some (InferOutcome.ok [1/10, 8/10, 1/10])) = Except.ok ("Rust", "Medium") := by
  constructor <;>
    (norm_num [cc_analyze_frame, argmax, argmaxFrom, ccSeverity];
     intro h; exact absurd h (by decide))

/-- C4 (amended): for a non-healthy arg-max label, the raspi
keras_detector maps confidence below 0.5 to Low, in [0.5, 0.8) to
Medium, and at or above 0.8 to High (0.5 yields Medium, 0.8 yields
High); cc.py's analyze_frame instead uses strict comparisons, so 0.5
yields Low and 0.8 yields Medium there. -/
theorem C4_model_thresholds (probs : List ℚ) (label : String)
    (hp : (keras_detector probs).1 ≠ "Healthy") (hl : label ≠ "Healthy") :
    ((keras_detector probs).2.2 =
      if (keras_detector probs).2.1 < 1/2 then 1
      else if (keras_detector probs).2.1 < 8/10 then 2
      else 3) ∧
    kerasSeverity label (1/2) = 2 ∧
    kerasSeverity label (8/10) = 3 ∧
    ccSeverity label (1/2) = "Low" ∧
    ccSeverity label (8/10) = "Medium" := by
  refine ⟨?_, ?_, ?_, ?_, ?_⟩
  · have h : (keras_detector probs).2.2 =
        kerasSeverity (keras_detector probs).1 (keras_detector probs).2.1 := rfl
    rw [h, kerasSeverity, if_neg hp]
  · rw [kerasSeverity, if_neg hl]
    norm_num
  · rw [kerasSeverity, if_neg hl]
    norm_num
  · rw [ccSeverity, if_pos hl]
    norm_num
  · rw [ccSeverity, if_pos hl]
    norm_num

/-- Witness for C4 (amended): a probability vector whose arg-max class
is Disease_A with confidence 0.7, and the non-healthy label Rust at
the two boundary confidences. -/
theorem C4_model_thresholds_witness :
    ((keras_detector [1/10, 7/10, 1/5]).2.2 =
      if (keras_detector [1/10, 7/10, 1/5]).2.1 < 1/2 then 1
      else if (keras_detector [1/10, 7/10, 1/5]).2.1 < 8/10 then 2
      else 3) ∧
    kerasSeverity "Rust" (1/2) = 2 ∧
    kerasSeverity "Rust" (8/10) = 3 ∧
    ccSeverity "Rust" (1/2) = "Low" ∧
    ccSeverity "Rust" (8/10) = "Medium" :=
  C4_model_thresholds [1/10, 7/10, 1/5] "Rust"
    (by norm_num [keras_detector, argmax, argmaxFrom, CLASS_NAMES]; decide)
    (by decide)

/-- Counterexample for C6: in cc.py an inference-time error of the
model-backed strategy propagates out of analyze_frame and out of the
check route as an error; no heuristic fallback runs for that call. -/
theorem C6_counterexample :
    cc_analyze_frame ["Healthy", "Rust", "Blight"]
      (Option.some (InferOutcome.err "input shape mismatch")) =
      Except.error "input shape mismatch" ∧
    cc_check (Option.some "wheat") (Option.some [bandPixel])
      (Option.some (InferOutcome.err "input shape mismatch"))
      ["Healthy", "Rust", "Blight"] Option.none =
      Except.error "input shape mismatch" := by
  constructor
  · rfl
  · rw [cc_check, if_neg (by simp [plantTruthy])]
    rfl

/-- C6 (amended): when the keras model raises at inference time, the
raspi /detect route returns the placeholder detector result on the
same frame with no error surfaced; cc.py instead only uses its mock
fallback when the model failed to load, and an inference-time
exception propagates to the caller as an error. -/
theorem C6_inference_failure_fallback :
    (∀ (frame : Frame) (m : String),
      raspi_detect (Option.some frame) (Option.some (InferOutcome.err m)) =
        DetectResponse.result (placeholder_detector frame).1 (placeholder_detector frame).2.1
          (placeholder_detector frame).2.2 "Used placeholder detector.") ∧
    (∀ classes : List String,
      cc_analyze_frame classes Option.none =
        Except.ok ("Mock: Possible infection detected", "Medium")) ∧
    (∀ (classes : List String) (m : String),
      cc_analyze_frame classes (Option.some (InferOutcome.err m)) = Except.error m) :=
  ⟨fun _ _ => rfl, fun _ => rfl, fun _ _ => rfl⟩

set_option maxHeartbeats 1000000 in
theorem sysInv_step (s : Sys) (t : Bool) (h : sysInv s = true) :
    sysInv (sysStep s t) = true := by
  obtain ⟨pc0, pc1, lock, pin, ret0, ret1⟩ := s
  cases t <;> cases pc0 <;> cases pc1 <;>
    rcases lock with _ | ⟨_ | _⟩ <;>
    simp_all [sysInv, sysStep, inDrive]

theorem sysInv_run (sched : List Bool) : sysInv (sysRun sysInit sched) = true := by
  have general : ∀ (l : List Bool) (s : Sys), sysInv s = true → sysInv (sysRun s l) = true := by
    intro l
    induction l with
    | nil => intro s h; exact h
    | cons b bs ih => intro s h; exact ih (sysStep s b) (sysInv_step s b h)
  exact general sched sysInit (by rfl)

/-- Counterexample for C2: with both spray calls arriving while the
actuator is idle, the raspi model produces two Activated outcomes (a
return value of True for each thread) and no Refused outcome under the
run-to-completion interleaving; under the interleaving where the
second call steps while the first holds pump_lock, the second call is
still waiting at the acquire (queued, no busy reply); and in the cc.py
model the interleaving [false, true] puts both trigger_pump threads
mid-drive at once, so two drive sequences overlap. -/
theorem C2_counterexample :
    (sysRun sysInit [false, false, false, false, false, true, true, true, true, true]).ret0 =
      Option.some true ∧
    (sysRun sysInit [false, false, false, false, false, true, true, true, true, true]).ret1 =
      Option.some true ∧
    (sysRun sysInit [false, true]).pc1 = Phase.pAcquire ∧
    (sysRun sysInit [false, true]).ret1 = Option.none ∧
    cInDrive (csysRun csysInit [false, true]).cpc0 = true ∧
    cInDrive (csysRun csysInit [false, true]).cpc1 = true :=
  ⟨rfl, rfl, rfl, rfl, rfl, rfl⟩

/-- C2 (amended): in raspi_smart_sprayer, a second activate_pump call
arriving while a drive is in progress blocks on pump_lock until the
drive finishes and then runs its own full drive — queued, never
refused — and every call that completes returns True (the activated
outcome; no busy outcome exists); because the whole
assert–hold–deassert cycle runs under the lock, no two raspi drive
sequences overlap under any interleaving.  In the cc.py app, spray
spawns trigger_pump with no interlock at all, and two concurrent drive
sequences can overlap. -/
theorem C2_spray_interlock :
    (∀ sched : List Bool,
      (inDrive (sysRun sysInit sched).pc0 && inDrive (sysRun sysInit sched).pc1) = false) ∧
    (∀ sched : List Bool,
      ((sysRun sysInit sched).ret0 = Option.none ∨
       (sysRun sysInit sched).ret0 = Option.some true) ∧
      ((sysRun sysInit sched).ret1 = Option.none ∨
       (sysRun sysInit sched).ret1 = Option.some true)) ∧
    (∀ (pc : Phase) (pin : Level) (r0 r1 : Option Bool),
      sysStep { pc0 := pc, pc1 := Phase.pAcquire, lock := Option.some false,
                pin := pin, ret0 := r0, ret1 := r1 } true =
        { pc0 := pc, pc1 := Phase.pAcquire, lock := Option.some false,
          pin := pin, ret0 := r0, ret1 := r1 }) ∧
    (cInDrive (csysRun csysInit [false, true]).cpc0 = true ∧
     cInDrive (csysRun csysInit [false, true]).cpc1 = true) := by
  refine ⟨?_, ?_, ?_, rfl, rfl⟩
  · intro sched
    have h := sysInv_run sched
    simp only [sysInv, Bool.and_eq_true, Bool.or_eq_true, decide_eq_true_eq,
      Bool.not_eq_true'] at h
    exact h.1.1.2
  · intro sched
    have h := sysInv_run sched
    simp only [sysInv, Bool.and_eq_true, Bool.or_eq_true, decide_eq_true_eq,
      Bool.not_eq_true'] at h
    exact ⟨h.1.2, h.2⟩
  · intro pc pin r0 r1
    rfl
